import Mathlib

/-!
Shallow embedding of the volatility-forecasting repository
(`src/volatility_models.py`, `src/data_fetcher.py`, `src/app.py`).

Conventions of the embedding:
* Python floats are modelled as `ℚ` where decidable evaluation is needed and
  as `ℝ` where `log`/`sqrt` are involved.
* A pandas cell that may be NaN is modelled as `Option ℚ` (`none` = NaN);
  `dropna` is `List.filterMap id`.
* Exceptions are modelled with `Except String`; `raise` is `.error`,
  a normal return is `.ok`.
* Calls into the external `arch` library (`model.fit`, `get_forecast`) are
  modelled as oracle parameters: `fitAttempt n` is the outcome the library
  would return on the n-th fitting attempt of the same series (the code
  performs only attempt 0), and `getForecastVariance` is the outcome of the
  forecast computation on a given fit result.
-/

namespace VolForecast

/-- The slice of the `arch` results object that the repository reads:
`results.aic`, `results.bic`, `results.loglikelihood`. -/
structure FitRes where
  aic : ℚ
  bic : ℚ
  loglikelihood : ℚ
deriving DecidableEq

/-- `VolatilityModels.fit_garch` (src/volatility_models.py:50-74).
The body is one `try` block: build the model, call `model.fit` once
(attempt 0 of the oracle), compute the forecast variance row, divide by
10000 and take square roots; any exception is printed and re-raised. -/
noncomputable def fit_garch (fitAttempt : ℕ → Except String FitRes)
    (getForecastVariance : FitRes → Except String (List ℝ)) :
    Except String (FitRes × List ℝ) :=
  match fitAttempt 0 with
  | Except.error e => Except.error e
  | Except.ok results =>
    match getForecastVariance results with
    | Except.error e => Except.error e
    | Except.ok variances =>
      Except.ok (results, variances.map (fun v => Real.sqrt (v / 10000)))

/-- `VolatilityModels.fit_egarch` (src/volatility_models.py:110-134);
identical control flow to `fit_garch`, only the `vol=` string differs
(absorbed into the oracle). -/
noncomputable def fit_egarch (fitAttempt : ℕ → Except String FitRes)
    (getForecastVariance : FitRes → Except String (List ℝ)) :
    Except String (FitRes × List ℝ) :=
  match fitAttempt 0 with
  | Except.error e => Except.error e
  | Except.ok results =>
    match getForecastVariance results with
    | Except.error e => Except.error e
    | Except.ok variances =>
      Except.ok (results, variances.map (fun v => Real.sqrt (v / 10000)))

/-- One model's entry in the dict returned by `compare_models`. -/
structure ModelStats where
  aic : ℚ
  bic : ℚ
  loglikelihood : ℚ
deriving DecidableEq

/-- `VolatilityModels.compare_models` (src/volatility_models.py:137-165).
Fits GARCH first, then EGARCH, inside a single `try`; on any exception the
function prints and returns `None`; otherwise it returns the two stat
dicts. -/
noncomputable def compare_models (gFit eFit : ℕ → Except String FitRes)
    (gFc eFc : FitRes → Except String (List ℝ)) :
    Option (ModelStats × ModelStats) :=
  match fit_garch gFit gFc with
  | Except.error _ => none
  | Except.ok (g, _) =>
    match fit_egarch eFit eFc with
    | Except.error _ => none
    | Except.ok (e, _) =>
      some (⟨g.aic, g.bic, g.loglikelihood⟩, ⟨e.aic, e.bic, e.loglikelihood⟩)

/-- `VolatilityModels.rolling_forecast` (src/volatility_models.py:191-236).
The loop runs `i` over `range(window, len(returns) - forecast_horizon)`;
each iteration fits on the window ending at `i` and appends the last
forecast value and the date at position `i + forecast_horizon`, and an
exception in an iteration is swallowed by `continue`.  The per-window fit
(including reading `forecast[-1]`) is the oracle `fitLast`; `none` models an
exception.  Dates are modelled by their integer position in the index. -/
def rolling_forecast (n window horizon : ℕ) (fitLast : ℕ → Option ℚ) :
    List ℕ × List ℚ :=
  let idxs := List.range' window ((n - horizon) - window)
  let rows := idxs.filterMap (fun i => (fitLast i).map (fun f => (i + horizon, f)))
  (rows.map Prod.fst, rows.map Prod.snd)

/-! ### Data fetching and validation (src/data_fetcher.py) -/

/-- `data.dropna()` on a single price column: remove the NaN cells. -/
def dropna (rows : List (Option ℚ)) : List ℚ :=
  rows.filterMap id

/-- `DataFetcher.fetch_stock_data` (src/data_fetcher.py:57-96), after the
provider call: `none` input models `data is None`; an empty frame or, after
`dropna`, fewer than 100 rows yields `None` (the code prints a "⚠️ Warning"
for the `< 100` case but still returns `None`); otherwise the cleaned data
is returned.  The surrounding `try` only guards the provider call, which the
input argument already models. -/
def fetch_stock_data (data : Option (List (Option ℚ))) : Option (List ℚ) :=
  match data with
  | none => none
  | some rows =>
    if rows.length = 0 then none
    else
      let cleaned := dropna rows
      if cleaned.length < 100 then none
      else some cleaned

/-- `DataFetcher.calculate_returns` (src/data_fetcher.py:124-140).
`np.log(prices / prices.shift(1)).dropna() * 100`: the `shift` makes the
first entry NaN, which `dropna` removes, so for an all-positive NaN-free
price list the result pairs each price with its predecessor.  (`Real.log`
is total in Lean, so the embedding agrees with numpy exactly on positive
prices, which is the regime the claims consider.) -/
noncomputable def calculate_returns (prices : List ℝ) (method : String) : List ℝ :=
  let ratios := List.zipWith (fun cur prev => cur / prev) (prices.drop 1) prices
  let returns := if method == "log" then ratios.map Real.log
                 else ratios.map (fun r => r - 1)
  returns.map (fun r => r * 100)

/-- `DataFetcher.validate_data` (src/data_fetcher.py:190-213) on the
`Close` column (`none` cells model NaN). -/
def validate_data (close : Option (List (Option ℚ))) (min_observations : ℕ) :
    Bool × String :=
  match close with
  | none => (false, "Data is None")
  | some c =>
    if c.length < min_observations then
      (false, "Insufficient data")
    else if c.any (fun x => x.isNone) then
      (false, "Data contains NaN values")
    else if c.any (fun x => x == some 0) then
      (false, "Data contains zero prices")
    else
      (true, "Data validation passed")

/-! ### App-level data gate and parameter resolution (src/app.py) -/

/-- Outcome of the length checks in `src/app.py:199-203`: below 100 a
warning is shown, and below 50 an error is shown and `st.stop()` ends the
run. -/
inductive DataGate where
  | proceed
  | proceedWithWarning
  | stop
deriving DecidableEq

/-- The app's own length gate (src/app.py:199-203), reached only when
`fetch_stock_data` returned data. -/
def app_data_gate (n : ℕ) : DataGate :=
  if n < 100 then
    if n < 50 then DataGate.stop else DataGate.proceedWithWarning
  else DataGate.proceed

/-- `key in params` / `params[key]` on the fitted-parameter Series,
modelled as an association list of labels to values. -/
def lookupParam (params : List (String × ℚ)) (key : String) : Option ℚ :=
  (params.find? (fun p => p.1 == key)).map Prod.snd

/-- Whether `sub` occurs contiguously in `l` (Python's `sub in s`). -/
def charsStartWith : List Char → List Char → Bool
  | _, [] => true
  | [], _ :: _ => false
  | c :: cs, d :: ds => c == d && charsStartWith cs ds

/-- Recursive substring search over character lists. -/
def charsContain : List Char → List Char → Bool
  | [], sub => sub.isEmpty
  | l@(_ :: rest), sub => charsStartWith l sub || charsContain rest sub

/-- Python's `sub in s` on strings. -/
def strContains (s sub : String) : Bool :=
  charsContain s.toList sub.toList

/-- Python's `sub in s.lower()`: lowering is charwise (the labels involved
are ASCII). -/
def strContainsLower (s sub : String) : Bool :=
  charsContain (s.toList.map Char.toLower) sub.toList

/-- Omega resolution (src/app.py:328-342, identically src/app.py:475-488):
try the exact keys `Constant`, `const`, `mu` in order; if none is present
and the parameter list is non-empty, fall back to the first parameter
(`params.iloc[0]`). -/
def resolve_omega (params : List (String × ℚ)) : Option ℚ :=
  match ["Constant", "const", "mu"].findSome? (lookupParam params) with
  | some v => some v
  | none => params.head?.map Prod.snd

/-- Alpha/beta resolution (src/app.py:344-360): scan the labels in order
and take the first whose lowercased form contains the pattern; no exact
stage and no positional fallback. -/
def resolve_by_substring (pattern : String) (params : List (String × ℚ)) :
    Option ℚ :=
  (params.find? (fun p => strContainsLower p.1 pattern)).map Prod.snd

/-- `'alpha' in str(key).lower()` resolution (src/app.py:344-351). -/
def resolve_alpha (params : List (String × ℚ)) : Option ℚ :=
  resolve_by_substring "alpha" params

/-- `'beta' in str(key).lower()` resolution (src/app.py:353-360). -/
def resolve_beta (params : List (String × ℚ)) : Option ℚ :=
  resolve_by_substring "beta" params

/-- The gamma label test of src/app.py:511-514: any of `gamma`,
`leverage`, `asymmetry` occurs in the lowercased label. -/
def gammaMatches (key : String) : Bool :=
  ["gamma", "leverage", "asymmetry"].any (fun g => strContainsLower key g)

/-- Gamma resolution (src/app.py:509-521): first label matching
`gammaMatches` wins; none matching leaves gamma `None`. -/
def resolve_gamma (params : List (String × ℚ)) : Option ℚ :=
  (params.find? (fun p => gammaMatches p.1)).map Prod.snd

/-- `format_param` (src/app.py:363-366 and 524-527): `None`/NaN renders as
"N/A", otherwise the value is printed (the numeric text of `f"{v:.6f}"` is
abstracted to `toString`; no claim inspects it). -/
def format_param (val : Option ℚ) : String :=
  match val with
  | none => "N/A"
  | some v => toString v

/-- `VolatilityModels.extract_model_parameters`
(src/volatility_models.py:168-188): exact `.get` lookups with an
NaN default (NaN modelled as `none`), plus a gamma row only when the exact
label `gamma[1]` is present. -/
def extract_model_parameters (params : List (String × ℚ)) :
    List (String × Option ℚ) :=
  let base := [("Omega", lookupParam params "Constant"),
               ("Alpha", lookupParam params "alpha[1]"),
               ("Beta", lookupParam params "beta[1]")]
  match lookupParam params "gamma[1]" with
  | some g => base ++ [("Gamma", some g)]
  | none => base

/-! ### Model-selection recommendation (src/app.py:674-683) -/

/-- Which model the comparison tab recommends. -/
inductive ModelChoice where
  | garch
  | egarch
deriving DecidableEq

/-- The recommendation logic of src/app.py:676-683: strictly lower GARCH
AIC recommends GARCH with gap `egarchAIC - garchAIC`, otherwise EGARCH with
gap `garchAIC - egarchAIC`. -/
def recommend (garchAIC egarchAIC : ℚ) : ModelChoice × ℚ :=
  if garchAIC < egarchAIC then (ModelChoice.garch, egarchAIC - garchAIC)
  else (ModelChoice.egarch, garchAIC - egarchAIC)

/-- Modelled from the spec: the resolution order claimed for the constant —
exact known-name match first, then case-insensitive substring match, then
positional fallback to the first parameter.  Written only to be compared
against the code's `resolve_omega`, which has no substring stage. -/
def resolve_omega_claimed (params : List (String × ℚ)) : Option ℚ :=
  match ["Constant", "const", "mu"].findSome? (lookupParam params) with
  | some v => some v
  | none =>
    match (params.find? (fun p =>
        ["constant", "const", "mu"].any (fun k => strContainsLower p.1 k))).map Prod.snd with
    | some v => some v
    | none => params.head?.map Prod.snd

/-! ### Concrete instances used by counterexamples and witnesses -/

/-- Raw labels of a fitted GARCH(1,1) model, as the `arch` library names
them; it has no gamma-like label. -/
def garchParams : List (String × ℚ) := [("Constant", 1), ("alpha[1]", 2), ("beta[1]", 3)]

/-- A label list without any of the exact constant names, whose second
entry would match `mu` as a substring while the first parameter is the
beta coefficient. -/
def omegaFallbackParams : List (String × ℚ) := [("beta[1]", 1), ("the_mu", 2)]

/-- A concrete fit-result value. -/
def sampleFit : FitRes := ⟨-100, -90, 60⟩

/-- An optimizer oracle whose primary attempt fails to converge but whose
second (relaxed) attempt would succeed. -/
def retryOracle : ℕ → Except String FitRes :=
  fun n => if n = 0 then Except.error "convergence failure" else Except.ok sampleFit

/-- A forecast computation that always throws (numerical overflow). -/
def overflowForecast : FitRes → Except String (List ℝ) :=
  fun _ => Except.error "overflow"

/-- A forecast computation that always succeeds (empty variance row). -/
def emptyForecast : FitRes → Except String (List ℝ) :=
  fun _ => Except.ok []

end VolForecast

namespace VolForecast

/-! ### C1 -/

/-- C1 counterexample: on a series whose primary fitting attempt fails to
converge while a second (relaxed) attempt would succeed (`retryOracle`),
`fit_garch` and `fit_egarch` surface the failure after only the primary
attempt — the retry the claim requires never happens and no
`FitFailedError` (which does not exist in the code) is produced. -/
theorem C1_counterexample :
    retryOracle 0 = Except.error "convergence failure"
    ∧ retryOracle 1 = Except.ok sampleFit
    ∧ fit_garch retryOracle emptyForecast = Except.error "convergence failure"
    ∧ fit_egarch retryOracle emptyForecast = Except.error "convergence failure" :=
  ⟨rfl, rfl, rfl, rfl⟩

/-- C1 (amended): `fit_garch` and `fit_egarch` make exactly one fitting
attempt.  If the primary attempt fails, its exception is re-raised to the
caller unchanged (no relaxed retry, no `FitFailedError`), and the outcome
of either function depends only on the primary attempt's result. -/
theorem C1_fit_single_attempt
    (o o' : ℕ → Except String FitRes) (g : FitRes → Except String (List ℝ))
    (e : String) :
    (o 0 = Except.error e →
      fit_garch o g = Except.error e ∧ fit_egarch o g = Except.error e)
    ∧ (o 0 = o' 0 →
      fit_garch o g = fit_garch o' g ∧ fit_egarch o g = fit_egarch o' g) := by
  refine ⟨fun h => ?_, fun h => ?_⟩ <;>
    exact ⟨by simp [fit_garch, h], by simp [fit_egarch, h]⟩

/-- C1 witness: the amended theorem applied at the concrete oracle whose
primary attempt fails. -/
theorem C1_fit_single_attempt_witness :
    fit_garch retryOracle emptyForecast = Except.error "convergence failure"
    ∧ fit_egarch retryOracle emptyForecast = Except.error "convergence failure" :=
  (C1_fit_single_attempt retryOracle retryOracle emptyForecast
    "convergence failure").1 rfl

/-! ### C2 -/

/-- C2 counterexample: with a fit that succeeds and a forecast computation
that throws (`overflowForecast`), both `fit_garch` and `fit_egarch` return
the exception itself — the exception propagates to the caller instead of a
defined repeat-last-volatility result. -/
theorem C2_counterexample :
    fit_garch (fun _ => Except.ok sampleFit) overflowForecast
        = Except.error "overflow"
    ∧ fit_egarch (fun _ => Except.ok sampleFit) overflowForecast
        = Except.error "overflow" :=
  ⟨rfl, rfl⟩

/-- C2 (amended): if the forecast computation throws after a successful
fit, `fit_garch`/`fit_egarch` re-raise that exact exception to the caller;
there is no fallback to repeating the last in-sample conditional
volatility. -/
theorem C2_forecast_error_propagates
    (o : ℕ → Except String FitRes) (g : FitRes → Except String (List ℝ))
    (r : FitRes) (e : String)
    (hfit : o 0 = Except.ok r) (hfc : g r = Except.error e) :
    fit_garch o g = Except.error e ∧ fit_egarch o g = Except.error e :=
  ⟨by simp [fit_garch, hfit, hfc], by simp [fit_egarch, hfit, hfc]⟩

/-- C2 witness: the amended theorem applied to a concrete successful fit
with an overflowing forecast. -/
theorem C2_forecast_error_propagates_witness :
    fit_garch (fun _ => Except.ok sampleFit) overflowForecast
        = Except.error "overflow"
    ∧ fit_egarch (fun _ => Except.ok sampleFit) overflowForecast
        = Except.error "overflow" :=
  C2_forecast_error_propagates (fun _ => Except.ok sampleFit) overflowForecast
    sampleFit "overflow" rfl rfl

/-! ### C3 -/

/-- C3 counterexample: the EGARCH fit succeeds on its own, yet when the
GARCH fit fails `compare_models` returns `None` — neither model's
statistics are reported, contradicting "the comparator still returns the
successful model's fit statistics with the failed one marked Failed". -/
theorem C3_counterexample :
    fit_egarch (fun _ => Except.ok sampleFit) emptyForecast
        = Except.ok (sampleFit, [])
    ∧ compare_models (fun _ => Except.error "convergence failure")
        (fun _ => Except.ok sampleFit) emptyForecast emptyForecast = none :=
  ⟨rfl, rfl⟩

/-- C3 (amended): `compare_models` catches the whole comparison in a single
`try`: if the GARCH fit fails, or the GARCH fit succeeds and the EGARCH fit
fails, it returns `None` and reports neither model; it returns the two stat
dicts exactly when both fits succeed. -/
theorem C3_compare_models_all_or_nothing
    (gF eF : ℕ → Except String FitRes)
    (gC eC : FitRes → Except String (List ℝ)) (e : String) :
    (fit_garch gF gC = Except.error e → compare_models gF eF gC eC = none)
    ∧ (fit_egarch eF eC = Except.error e → compare_models gF eF gC eC = none)
    ∧ ∀ g eg gv ev, fit_garch gF gC = Except.ok (g, gv) →
        fit_egarch eF eC = Except.ok (eg, ev) →
        compare_models gF eF gC eC =
          some (⟨g.aic, g.bic, g.loglikelihood⟩, ⟨eg.aic, eg.bic, eg.loglikelihood⟩) := by
  refine ⟨fun h => ?_, fun h => ?_, fun g eg gv ev hg he => ?_⟩
  · simp [compare_models, h]
  · cases hg : fit_garch gF gC with
    | error e2 => simp [compare_models, hg]
    | ok p => cases p with
      | mk g gv => simp [compare_models, hg, h]
  · simp [compare_models, hg, he]

/-- C3 witness: the amended theorem applied at a failing GARCH oracle and a
succeeding EGARCH oracle. -/
theorem C3_compare_models_all_or_nothing_witness :
    compare_models (fun _ => Except.error "convergence failure")
      (fun _ => Except.ok sampleFit) emptyForecast emptyForecast = none :=
  (C3_compare_models_all_or_nothing (fun _ => Except.error "convergence failure")
    (fun _ => Except.ok sampleFit) emptyForecast emptyForecast
    "convergence failure").1 rfl

/-! ### C4 -/

/-- C4 counterexample: a cleaned series of exactly 50 observations is not
accepted — `fetch_stock_data` returns `None` for it (its threshold is 100,
not 50, and no `InsufficientDataError` exists in the code). -/
theorem C4_counterexample :
    fetch_stock_data (some (List.replicate 50 (some (1 : ℚ)))) = none :=
  rfl

/-- C4 (amended): `fetch_stock_data` rejects — by returning `None`, not by
raising an `InsufficientDataError` — every cleaned series of fewer than 100
observations, so series of 50 and of 49 observations are both rejected
before the app's own length gate can run; that gate, on lengths that do
reach it, proceeds with only a soft warning at 50 and stops below 50.
Series of at least 100 cleaned observations are accepted. -/
theorem C4_fetch_length_gate (rows : List (Option ℚ)) (hne : rows ≠ []) :
    ((dropna rows).length < 100 → fetch_stock_data (some rows) = none)
    ∧ (100 ≤ (dropna rows).length →
        fetch_stock_data (some rows) = some (dropna rows))
    ∧ app_data_gate 50 = DataGate.proceedWithWarning
    ∧ app_data_gate 49 = DataGate.stop := by
  refine ⟨fun hlen => ?_, fun hlen => ?_, rfl, rfl⟩
  · simp only [fetch_stock_data]
    rw [if_neg (by simpa [List.length_eq_zero] using hne), if_pos hlen]
  · simp only [fetch_stock_data]
    rw [if_neg (by simpa [List.length_eq_zero] using hne),
      if_neg (not_lt.mpr hlen)]

/-- C4 witness: the amended theorem applied at concrete 50-row and 100-row
series. -/
theorem C4_fetch_length_gate_witness :
    fetch_stock_data (some (List.replicate 50 (some (1 : ℚ)))) = none
    ∧ fetch_stock_data (some (List.replicate 100 (some (1 : ℚ))))
        = some (dropna (List.replicate 100 (some (1 : ℚ)))) :=
  ⟨(C4_fetch_length_gate (List.replicate 50 (some 1)) (by decide)).1 (by decide),
   (C4_fetch_length_gate (List.replicate 100 (some 1)) (by decide)).2.1 (by decide)⟩

/-! ### C5 -/

/-- C5: for an all-positive, NaN-free price list of length N,
`calculate_returns` with the log method yields N-1 entries, the entry at
position t-1 (0-based) being `100 * ln(P[t]/P[t-1])` for t = 1..N-1. -/
theorem C5_calculate_returns_log (prices : List ℝ)
    (_hpos : ∀ p ∈ prices, 0 < p) :
    (calculate_returns prices "log").length = prices.length - 1
    ∧ ∀ i, i + 1 < prices.length →
        (calculate_returns prices "log").getD i 0
          = 100 * Real.log (prices.getD (i + 1) 0 / prices.getD i 0) := by
  constructor
  · simp [calculate_returns]
  · intro i hi
    have hi0 : i < prices.length := by omega
    have h1 : prices[i]? = some (prices.getD i 0) := by
      rw [List.getD_eq_getElem?_getD, List.getElem?_eq_getElem hi0]; rfl
    have h2 : prices[i + 1]? = some (prices.getD (i + 1) 0) := by
      rw [List.getD_eq_getElem?_getD, List.getElem?_eq_getElem hi]; rfl
    have hmain : (calculate_returns prices "log")[i]? =
        some (Real.log (prices.getD (i + 1) 0 / prices.getD i 0) * 100) := by
      simp only [calculate_returns]
      rw [if_pos (show ("log" == "log") = true from rfl)]
      rw [List.getElem?_map, List.getElem?_map, List.getElem?_zipWith',
        List.getElem?_drop]
      rw [show 1 + i = i + 1 by omega]
      rw [h1, h2]
      rfl
    rw [List.getD_eq_getElem?_getD, hmain]
    simp [mul_comm]

/-- C5 witness: the theorem applied at the positive price list `[1, 2]`,
whose single log return is `100 * ln 2`. -/
theorem C5_calculate_returns_log_witness :
    (calculate_returns [(1 : ℝ), 2] "log").length = 1
    ∧ (calculate_returns [(1 : ℝ), 2] "log").getD 0 0
        = 100 * Real.log ((2 : ℝ) / 1) := by
  have h := C5_calculate_returns_log [(1 : ℝ), 2] (by norm_num)
  refine ⟨by simpa using h.1, ?_⟩
  have := h.2 0 (by norm_num)
  simpa using this

/-! ### C6 -/

/-- C6 counterexample: a constant-price series (100 identical positive
closes, zero variance throughout) passes `validate_data` — the pipeline
proceeds toward estimation instead of raising an `InvalidDataError`, which
does not exist in the code. -/
theorem C6_counterexample :
    validate_data (some (List.replicate 100 (some (5 : ℚ)))) 100
      = (true, "Data validation passed") :=
  rfl

/-- C6 (amended): `validate_data` checks only for missing data,
insufficient length, NaN and exactly-zero prices; it has no zero-variance
check, so every constant nonzero-price series of sufficient length passes
validation and proceeds toward fitting, and no `InvalidDataError` is ever
raised. -/
theorem C6_validate_data_passes_constant (c : ℚ) (n minObs : ℕ)
    (hc : c ≠ 0) (hn : minObs ≤ n) :
    validate_data (some (List.replicate n (some c))) minObs
      = (true, "Data validation passed") := by
  simp only [validate_data, List.length_replicate]
  rw [if_neg (by omega)]
  rw [if_neg (by simp [List.any_eq_true, List.mem_replicate])]
  rw [if_neg (by simp [List.any_eq_true, List.mem_replicate, hc])]

/-- C6 witness: the amended theorem at a concrete constant series of 100
closes at price 5. -/
theorem C6_validate_data_passes_constant_witness :
    validate_data (some (List.replicate 100 (some (5 : ℚ)))) 100
      = (true, "Data validation passed") :=
  C6_validate_data_passes_constant 5 100 100 (by norm_num) (by norm_num)

/-! ### C7 -/

/-- C7: when no raw label matches a semantic role, the resolver leaves the
role `None` and the display renders it "N/A": a substring-resolved role
(alpha/beta pattern) with no matching label resolves to `none`, gamma with
no gamma/leverage/asymmetry label resolves to `none`, and omega over an
empty parameter list resolves to `none`; `format_param` renders `none` as
"N/A".  All resolvers are total functions — no exception is possible for an
absent role. -/
theorem C7_absent_role_resolves_to_none (params : List (String × ℚ))
    (pat : String)
    (hsub : ∀ p ∈ params, strContainsLower p.1 pat = false)
    (hgam : ∀ p ∈ params, gammaMatches p.1 = false) :
    (resolve_by_substring pat params = none
      ∧ format_param (resolve_by_substring pat params) = "N/A")
    ∧ (resolve_gamma params = none
      ∧ format_param (resolve_gamma params) = "N/A")
    ∧ (resolve_omega [] = none ∧ format_param (resolve_omega []) = "N/A") := by
  have h1 : params.find? (fun p => strContainsLower p.1 pat) = none :=
    List.find?_eq_none.mpr (fun x hx => by simp [hsub x hx])
  have h2 : params.find? (fun p => gammaMatches p.1) = none :=
    List.find?_eq_none.mpr (fun x hx => by simp [hgam x hx])
  refine ⟨⟨?_, ?_⟩, ⟨?_, ?_⟩, ⟨rfl, rfl⟩⟩ <;>
    simp [resolve_by_substring, resolve_gamma, format_param, h1, h2]

/-- C7 witness: GARCH labels have no gamma-like label, so gamma resolves to
`none` and renders "N/A". -/
theorem C7_absent_role_resolves_to_none_witness :
    resolve_gamma garchParams = none
    ∧ format_param (resolve_gamma garchParams) = "N/A" :=
  (C7_absent_role_resolves_to_none garchParams "gamma"
    (by decide) (by decide)).2.1

/-! ### C8 -/

/-- C8 counterexample: on labels with no exact constant name where `mu`
does occur as a substring of a later label, the code's `resolve_omega`
skips straight to the positional fallback and returns the first parameter
(the beta coefficient), while the claimed order (exact, then substring,
then positional — `resolve_omega_claimed`) would return the substring
match.  The claimed middle stage does not exist in the code. -/
theorem C8_counterexample :
    resolve_omega omegaFallbackParams = some 1
    ∧ resolve_omega_claimed omegaFallbackParams = some 2 :=
  ⟨rfl, rfl⟩

/-- C8 (amended): omega is resolved by exact match on
`Constant`/`const`/`mu` and otherwise falls back directly to the first
parameter, with no substring stage; alpha, beta and gamma are resolved only
by case-insensitive substring match, with no exact stage and no positional
fallback (an unmatched pattern yields `none` even when parameters exist).
The positional fallback is used only for the constant. -/
theorem C8_resolution_order (params : List (String × ℚ)) (pat : String)
    (v : ℚ) :
    (lookupParam params "Constant" = some v → resolve_omega params = some v)
    ∧ ((∀ k ∈ ["Constant", "const", "mu"], lookupParam params k = none) →
        resolve_omega params = params.head?.map Prod.snd)
    ∧ ((∀ p ∈ params, strContainsLower p.1 pat = false) →
        resolve_by_substring pat params = none)
    ∧ ((∀ p ∈ params, gammaMatches p.1 = false) →
        resolve_gamma params = none) := by
  refine ⟨fun h => ?_, fun h => ?_, fun h => ?_, fun h => ?_⟩
  · simp [resolve_omega, List.findSome?_cons, h]
  · have hC := h "Constant" (by simp)
    have hc := h "const" (by simp)
    have hm := h "mu" (by simp)
    simp [resolve_omega, List.findSome?_cons, hC, hc, hm]
  · have h1 : params.find? (fun p => strContainsLower p.1 pat) = none :=
      List.find?_eq_none.mpr (fun x hx => by simp [h x hx])
    simp [resolve_by_substring, h1]
  · have h2 : params.find? (fun p => gammaMatches p.1) = none :=
      List.find?_eq_none.mpr (fun x hx => by simp [h x hx])
    simp [resolve_gamma, h2]

/-- C8 witness: the amended theorem applied at concrete label lists — exact
match wins for omega, the fallback is positional (beta's value, not the
`mu`-substring label), and an absent substring pattern yields `none`. -/
theorem C8_resolution_order_witness :
    resolve_omega [("Constant", (7 : ℚ))] = some 7
    ∧ resolve_omega omegaFallbackParams = omegaFallbackParams.head?.map Prod.snd
    ∧ resolve_by_substring "gamma" garchParams = none :=
  ⟨(C8_resolution_order [("Constant", 7)] "x" 7).1 (by decide),
   (C8_resolution_order omegaFallbackParams "x" 0).2.1 (by decide),
   (C8_resolution_order garchParams "gamma" 0).2.2.1 (by decide)⟩

/-! ### C9 -/

/-- C9: the comparison tab recommends the strictly-lower-AIC model, and the
reported AIC gap is the absolute difference of the two AICs, hence
non-negative. -/
theorem C9_recommendation_lower_aic (g e : ℚ) :
    0 ≤ (recommend g e).2
    ∧ (recommend g e).2 = |g - e|
    ∧ (g < e → (recommend g e).1 = ModelChoice.garch)
    ∧ (e < g → (recommend g e).1 = ModelChoice.egarch) := by
  unfold recommend
  rcases lt_or_le g e with h | h
  · rw [if_pos h]
    refine ⟨by simp; linarith, ?_, fun _ => rfl, fun h2 => absurd h2 (by linarith)⟩
    rw [abs_of_neg (by linarith : g - e < 0)]
    ring
  · rw [if_neg (not_lt.mpr h)]
    refine ⟨by simp; linarith, ?_, fun h2 => absurd h2 (by linarith), fun _ => rfl⟩
    rw [abs_of_nonneg (by linarith : (0 : ℚ) ≤ g - e)]

/-- C9 witness: with AICs 1 (GARCH) and 3 (EGARCH), GARCH is recommended
with gap 2. -/
theorem C9_recommendation_lower_aic_witness :
    (recommend 1 3).1 = ModelChoice.garch ∧ (recommend 1 3).2 = 2 := by
  have h := C9_recommendation_lower_aic 1 3
  refine ⟨h.2.2.1 (by norm_num), ?_⟩
  rw [h.2.1]
  norm_num

/-! ### C10 -/

/-- Helper: projecting the date column out of the rows kept by
`rolling_forecast` keeps exactly the window positions whose fit
succeeded. -/
theorem rows_map_fst (h : ℕ) (fit : ℕ → Option ℚ) (l : List ℕ) :
    ((l.filterMap (fun i => (fit i).map (fun f => (i + h, f)))).map Prod.fst)
      = (l.filter (fun i => (fit i).isSome)).map (fun i => i + h) := by
  induction l with
  | nil => rfl
  | cons a t ih =>
    cases hfa : fit a <;>
      simp [List.filterMap_cons, List.filter_cons, hfa, ih]

/-- C10: the `Date` and `Forecast` columns of `rolling_forecast` always
have equal length; the dates are exactly the positions `i + horizon` for
the window ends `i` in `range(window, n - horizon)` whose fit succeeded (a
failing window is skipped, never aborting the computation); and the row
count is at most `max 0 (n - window - horizon)`. -/
theorem C10_rolling_forecast_shape (n w h : ℕ) (fit : ℕ → Option ℚ) :
    (rolling_forecast n w h fit).1.length = (rolling_forecast n w h fit).2.length
    ∧ (rolling_forecast n w h fit).1 =
        ((List.range' w ((n - h) - w)).filter (fun i => (fit i).isSome)).map
          (fun i => i + h)
    ∧ ((rolling_forecast n w h fit).2.length : ℤ) ≤ max 0 ((n : ℤ) - w - h) := by
  refine ⟨by simp [rolling_forecast], ?_, ?_⟩
  · simp only [rolling_forecast]
    exact rows_map_fst h fit _
  · have h1 : (rolling_forecast n w h fit).2.length ≤ (n - h) - w := by
      simp only [rolling_forecast, List.length_map]
      exact le_trans (List.length_filterMap_le _ _) (by simp [List.length_range'])
    omega

end VolForecast
